import Mathlib

/-!
Verification model of the anime-web repository (single script `src/anime.py`,
a Streamlit dashboard over the Jikan REST API).

The embedding is shallow and executable:

* `Json` models Python values deserialized from API responses (dicts, lists,
  strings, ints, booleans, `None`).  `Json.get` models `dict.get(key, default)`
  (failing, as Python does with `AttributeError`, when the receiver is not a
  dict); `Json.truthy` models Python truthiness.
* The network is an oracle `net : String → HttpResult` mapping a request URL to
  either a transport failure (connection error / timeout, which `requests.get`
  raises) or a status code plus JSON body; `requestGet` composes `requests.get`
  with `response.raise_for_status()` and `response.json()`.
* Each of the four fetch functions records the URLs it requested, the messages
  it emitted via `st.error`, and its return value (`none` models Python `None`).
* `st.cache_data(ttl=3600)` is modelled by `cachedCall`: a memo table from the
  argument tuple to (timestamp, cached return value and replayed messages).
* `display_anime_card` produces a `Card`; it returns `none` exactly when the
  Python code would raise (e.g. a genre entry without a string `name`, or a
  non-dict where a dict is expected).
* Each page of the dispatch at the bottom of the script is a pure render-pass
  function producing the requests made, the messages shown and the cards drawn.
-/

namespace AnimeHub

/-- A Python value deserialized from a JSON API response: `None`, a bool, an
int, a string, a list, or a string-keyed dict.  (The script never does numeric
arithmetic on payload fields, it only displays them, so numbers are `Int`.) -/
inductive Json where
  | null
  | bool (b : Bool)
  | num (n : Int)
  | str (s : String)
  | arr (elems : List Json)
  | obj (members : List (String × Json))

namespace Json

mutual
/-- Structural boolean equality on `Json` (Python `==` on these values). -/
def beq : Json → Json → Bool
  | .null, .null => true
  | .bool a, .bool b => a == b
  | .num a, .num b => a == b
  | .str a, .str b => a == b
  | .arr xs, .arr ys => beqArr xs ys
  | .obj xs, .obj ys => beqObj xs ys
  | _, _ => false

/-- Pointwise `beq` on lists of values. -/
def beqArr : List Json → List Json → Bool
  | [], [] => true
  | x :: xs, y :: ys => beq x y && beqArr xs ys
  | _, _ => false

/-- Pointwise `beq` on dict member lists (keys compared as strings). -/
def beqObj : List (String × Json) → List (String × Json) → Bool
  | [], [] => true
  | (k, v) :: xs, (l, w) :: ys => k == l && beq v w && beqObj xs ys
  | _, _ => false
end

end Json

/-- Soundness and completeness of `Json.beq` (and its list/dict companions),
proved by induction on a size bound so the nested recursion unfolds. -/
theorem beq_sound (n : Nat) :
    (∀ a b : Json, sizeOf a < n → (Json.beq a b = true ↔ a = b)) ∧
    (∀ xs ys : List Json, sizeOf xs < n → (Json.beqArr xs ys = true ↔ xs = ys)) ∧
    (∀ ms ns : List (String × Json), sizeOf ms < n → (Json.beqObj ms ns = true ↔ ms = ns)) := by
  induction n with
  | zero => exact ⟨fun a _ h => absurd h (Nat.not_lt_zero _),
      fun xs _ h => absurd h (Nat.not_lt_zero _),
      fun ms _ h => absurd h (Nat.not_lt_zero _)⟩
  | succ n ih =>
    refine ⟨fun a b ha => ?_, fun xs ys hx => ?_, fun ms ns hm => ?_⟩
    · cases a <;> cases b <;>
        simp_all [Json.beq] <;>
        first
          | exact ih.2.1 _ _ (by omega)
          | exact ih.2.2 _ _ (by omega)
    · cases xs with
      | nil => cases ys <;> simp [Json.beqArr]
      | cons x xs =>
        cases ys with
        | nil => simp [Json.beqArr]
        | cons y ys =>
          have hx1 : sizeOf x < n := by simp at hx; omega
          have hx2 : sizeOf xs < n := by simp at hx; omega
          simp [Json.beqArr, ih.1 x y hx1, ih.2.1 xs ys hx2]
    · cases ms with
      | nil => cases ns <;> simp [Json.beqObj]
      | cons m ms =>
        cases ns with
        | nil => simp [Json.beqObj]
        | cons q ns =>
          obtain ⟨k, v⟩ := m
          obtain ⟨l, w⟩ := q
          have hv : sizeOf v < n := by simp at hm; omega
          have hms : sizeOf ms < n := by simp at hm; omega
          simp [Json.beqObj, ih.1 v w hv, ih.2.2 ms ns hms, and_assoc]

theorem Json.beq_iff_eq (a b : Json) : Json.beq a b = true ↔ a = b :=
  (beq_sound (sizeOf a + 1)).1 a b (Nat.lt_succ_self _)

instance : DecidableEq Json := fun a b =>
  decidable_of_iff _ (Json.beq_iff_eq a b)

instance : BEq Json := ⟨Json.beq⟩

instance : LawfulBEq Json where
  eq_of_beq h := (Json.beq_iff_eq _ _).mp h
  rfl := (Json.beq_iff_eq _ _).mpr rfl

namespace Json

/-- Python truthiness of a deserialized value: `None`, `False`, `0`, `""`,
`[]` and the empty dict are falsy, everything else is truthy. -/
def truthy : Json → Bool
  | .null => false
  | .bool b => b
  | .num n => n != 0
  | .str s => s != ""
  | .arr xs => !xs.isEmpty
  | .obj ms => !ms.isEmpty

/-- Python `d.get(key, default)`: `some` of the stored value, or of `default`
when the key is absent; `none` models the `AttributeError` raised when the
receiver is not a dict. -/
def get (j : Json) (key : String) (dflt : Json) : Option Json :=
  match j with
  | .obj members => some (((members.find? (fun p => p.1 == key)).map Prod.snd).getD dflt)
  | _ => none

/-- Python list coercion of a `for`-loop / slice target: succeeds only on a
list (the payload shapes the script iterates are JSON arrays). -/
def asArr : Json → Option (List Json)
  | .arr xs => some xs
  | _ => none

/-- Python `str()` of a value, as interpolated into f-string URLs.  The script
only ever interpolates ints and strings; composite values get a bracketed
rendering that is irrelevant to every claim. -/
def render : Json → String
  | .null => "None"
  | .bool b => if b then "True" else "False"
  | .num n => toString n
  | .str s => s
  | .arr _ => "[...]"
  | .obj _ => "\x7b...\x7d"

end Json

/-! ### Network model and the four fetch functions (lines 59–106) -/

/-- Result of one `requests.get(url, timeout=10)` call against the network
oracle: a raised transport failure (connection error or timeout), or an HTTP
response with a status code and parsed JSON body. -/
inductive HttpResult where
  | netError (msg : String)
  | response (status : Nat) (body : Json)

/-- Failing calls: transport error/timeout, or a 4xx/5xx status, exactly the
ones `response.raise_for_status()` raises on. -/
def HttpResult.fails : HttpResult → Prop
  | .netError _ => True
  | .response status _ => 400 ≤ status ∧ status < 600

instance (r : HttpResult) : Decidable r.fails := by
  cases r with
  | netError m => exact isTrue trivial
  | response s b => exact inferInstanceAs (Decidable (400 ≤ s ∧ s < 600))

/-- Composition of `requests.get`, `raise_for_status()` and `.json()`: the
parsed body, or the text of the exception caught by the fetch function. -/
def requestGet (net : String → HttpResult) (url : String) : Except String Json :=
  match net url with
  | .netError msg => .error msg
  | .response status body =>
      if 400 ≤ status ∧ status < 600 then .error ("HTTP status " ++ toString status)
      else .ok body

/-- What one fetch function call observably does: its return value (`none`
models Python `None`), the URLs it requested, and its `st.error` messages. -/
structure FetchOutcome where
  result : Option Json
  requests : List String
  errors : List String
deriving DecidableEq

/-- URL built by `fetch_top_anime` (line 64). -/
def topAnimeUrl (page limit : Int) : String :=
  "https://api.jikan.moe/v4/top/anime?page=" ++ toString page ++ "&limit=" ++ toString limit

/-- URL built by `search_anime` (line 76); the query is interpolated verbatim. -/
def searchAnimeUrl (query : String) : String :=
  "https://api.jikan.moe/v4/anime?q=" ++ query ++ "&limit=20"

/-- URL built by `fetch_anime_details` (line 88). -/
def animeDetailsUrl (animeId : Json) : String :=
  "https://api.jikan.moe/v4/anime/" ++ animeId.render ++ "/full"

/-- URL built by `fetch_seasonal_anime` (line 100). -/
def seasonalAnimeUrl (year : Int) (season : String) : String :=
  "https://api.jikan.moe/v4/seasons/" ++ toString year ++ "/" ++ season

/-- Body of `fetch_top_anime` (lines 61–70); its `st.cache_data` wrapper is
`fetch_top_anime_cached` below. -/
def fetch_top_anime (net : String → HttpResult) (page limit : Int) : FetchOutcome :=
  match requestGet net (topAnimeUrl page limit) with
  | .ok body => { result := some body, requests := [topAnimeUrl page limit], errors := [] }
  | .error e => { result := none, requests := [topAnimeUrl page limit],
                  errors := ["Error fetching anime data: " ++ e] }

/-- Body of `search_anime` (lines 73–82). -/
def search_anime (net : String → HttpResult) (query : String) : FetchOutcome :=
  match requestGet net (searchAnimeUrl query) with
  | .ok body => { result := some body, requests := [searchAnimeUrl query], errors := [] }
  | .error e => { result := none, requests := [searchAnimeUrl query],
                  errors := ["Error searching anime: " ++ e] }

/-- Body of `fetch_anime_details` (lines 85–94); the id is whatever value the
favorites list stored for `mal_id`. -/
def fetch_anime_details (net : String → HttpResult) (animeId : Json) : FetchOutcome :=
  match requestGet net (animeDetailsUrl animeId) with
  | .ok body => { result := some body, requests := [animeDetailsUrl animeId], errors := [] }
  | .error e => { result := none, requests := [animeDetailsUrl animeId],
                  errors := ["Error fetching anime details: " ++ e] }

/-- Body of `fetch_seasonal_anime` (lines 97–106). -/
def fetch_seasonal_anime (net : String → HttpResult) (year : Int) (season : String) :
    FetchOutcome :=
  match requestGet net (seasonalAnimeUrl year season) with
  | .ok body => { result := some body, requests := [seasonalAnimeUrl year season], errors := [] }
  | .error e => { result := none, requests := [seasonalAnimeUrl year season],
                  errors := ["Error fetching seasonal anime: " ++ e] }

/-! ### The `st.cache_data(ttl=3600)` memoization -/

/-- What the cache stores for one argument tuple: the cached return value and
the `st.error` messages replayed on a hit. -/
abbrev CachedVal := Option Json × List String

/-- Lookup of an argument tuple in a memo table. -/
def cacheLookup {κ : Type} [DecidableEq κ] (entries : List (κ × Nat × CachedVal))
    (key : κ) : Option (Nat × CachedVal) :=
  (entries.find? (fun e => decide (e.1 = key))).map (fun e => e.2)

/-- One call through an `st.cache_data(ttl=3600)` wrapper at time `now` (in
seconds): an entry younger than 3600 replays the stored value and messages
with no new request; otherwise the wrapped body runs and the entry is
refreshed. -/
def cachedCall {κ : Type} [DecidableEq κ] (entries : List (κ × Nat × CachedVal))
    (now : Nat) (key : κ) (compute : Unit → FetchOutcome) :
    FetchOutcome × List (κ × Nat × CachedVal) :=
  match cacheLookup entries key with
  | some (ts, val) =>
      if now - ts < 3600 then
        ({ result := val.1, requests := [], errors := val.2 }, entries)
      else
        let out := compute ()
        (out, (key, now, (out.result, out.errors)) :: entries)
  | none =>
      let out := compute ()
      (out, (key, now, (out.result, out.errors)) :: entries)

abbrev TopCache := List ((Int × Int) × Nat × CachedVal)
abbrev SearchCache := List (String × Nat × CachedVal)
abbrev DetailsCache := List (Json × Nat × CachedVal)
abbrev SeasonalCache := List ((Int × String) × Nat × CachedVal)

/-- `fetch_top_anime` as the page code sees it, memoized on `(page, limit)`. -/
def fetch_top_anime_cached (net : String → HttpResult) (cache : TopCache) (now : Nat)
    (page limit : Int) : FetchOutcome × TopCache :=
  cachedCall cache now (page, limit) (fun _ => fetch_top_anime net page limit)

/-- `search_anime` as the page code sees it, memoized on the query string. -/
def search_anime_cached (net : String → HttpResult) (cache : SearchCache) (now : Nat)
    (query : String) : FetchOutcome × SearchCache :=
  cachedCall cache now query (fun _ => search_anime net query)

/-- `fetch_anime_details` as the page code sees it, memoized on the id. -/
def fetch_anime_details_cached (net : String → HttpResult) (cache : DetailsCache)
    (now : Nat) (animeId : Json) : FetchOutcome × DetailsCache :=
  cachedCall cache now animeId (fun _ => fetch_anime_details net animeId)

/-- `fetch_seasonal_anime` as the page code sees it, memoized on
`(year, season)`. -/
def fetch_seasonal_anime_cached (net : String → HttpResult) (cache : SeasonalCache)
    (now : Nat) (year : Int) (season : String) : FetchOutcome × SeasonalCache :=
  cachedCall cache now (year, season) (fun _ => fetch_seasonal_anime net year season)

/-! ### The card presenter `display_anime_card` (lines 108–177) -/

/-- The visual block one `display_anime_card` call produces: each field is the
value the corresponding widget shows, with `none` for the optional blocks the
code skips. -/
structure Card where
  image : Option Json
  title : Json
  titleEnglish : Option Json
  score : Json
  episodes : Json
  year : Json
  status : Json
  genreLine : Option String
  synopsis : Option Json
  malId : Json
  malLink : Option Json
  trailerLink : Option Json
deriving DecidableEq

/-- Python `d[key]` subscript: no default; `none` models the `KeyError` (or
the `TypeError` of subscripting a non-dict). -/
def Json.index (j : Json) (key : String) : Option Json :=
  match j with
  | .obj members => (members.find? (fun p => p.1 == key)).map Prod.snd
  | _ => none

/-- One entry of the genre line, `g['name']` (line 149): the tag's name
string; `none` models the error Python raises when the entry has no string
`name`. -/
def genreName (g : Json) : Option String :=
  match g.index "name" with
  | some (.str s) => some s
  | _ => none

/-- The card presenter (lines 108–177), as the record of what it draws.
Returns `none` exactly when the Python code would raise: the item is not a
dict, or its truthy `genres` value is not a list of entries with string
names. -/
def display_anime_card (anime : Json) : Option Card := do
  let imagesVal ← anime.get "images" (.obj [])
  let jpgVal ← imagesVal.get "jpg" (.obj [])
  let imgUrl ← jpgVal.get "large_image_url" .null
  let image := if imgUrl.truthy then some imgUrl else none
  let title ← anime.get "title" (.str "Unknown Title")
  let engVal ← anime.get "title_english" .null
  let titleEnglish := if engVal.truthy then some engVal else none
  let score ← anime.get "score" (.str "N/A")
  let episodes ← anime.get "episodes" (.str "N/A")
  let year ← anime.get "year" (.str "N/A")
  let status ← anime.get "status" (.str "N/A")
  let genresVal ← anime.get "genres" .null
  let genreLine ←
    if genresVal.truthy then do
      let gs ← genresVal.asArr
      let names ← (gs.take 5).mapM genreName
      pure (some (String.intercalate " • " names))
    else pure none
  let synVal ← anime.get "synopsis" .null
  let synopsis := if synVal.truthy then some synVal else none
  let malId ← anime.get "mal_id" .null
  let urlVal ← anime.get "url" .null
  let malLink := if urlVal.truthy then some urlVal else none
  let trailerVal ← anime.get "trailer" (.obj [])
  let trailerUrl ← trailerVal.get "url" .null
  let trailerLink := if trailerUrl.truthy then some trailerUrl else none
  pure { image := image, title := title, titleEnglish := titleEnglish,
         score := score, episodes := episodes, year := year, status := status,
         genreLine := genreLine, synopsis := synopsis, malId := malId,
         malLink := malLink, trailerLink := trailerLink }

/-! ### The favorites list (session state) -/

/-- A message shown next to the favorites button. -/
inductive Notice where
  | success (msg : String)
  | info (msg : String)
deriving DecidableEq

/-- Effect of clicking "Add to Favorites" on a card (lines 161–167): append
the id if absent, else leave the list alone; the notice differs. -/
def addToFavorites (favorites : List Json) (animeId : Json) (title : Json) :
    List Json × Notice :=
  if animeId ∉ favorites then
    (favorites ++ [animeId], .success ("Added " ++ title.render ++ " to favorites!"))
  else
    (favorites, .info "Already in favorites!")

/-- Effect of "Remove from Favorites" (line 303): Python `list.remove`,
deleting the first occurrence. -/
def removeFromFavorites (favorites : List Json) (animeId : Json) : List Json :=
  favorites.erase animeId

/-! ### Sidebar widgets (lines 194–200, 261) -/

/-- The value an `st.number_input(min_value=lo, max_value=hi)` widget holds:
any attempted value is kept inside the bounds. -/
def numberInputClamp (lo hi v : Int) : Int := max lo (min hi v)

/-- Helper for `rangeDown`: `count` descending values starting at `start`. -/
def rangeDownAux : Nat → Int → List Int
  | 0, _ => []
  | n + 1, start => start :: rangeDownAux n (start - 1)

/-- Python `range(start, stop, -1)` as a list: it holds exactly the
`max 0 (start - stop)` values `start, start - 1, ..., stop + 1`. -/
def rangeDown (start stop : Int) : List Int :=
  rangeDownAux (start - stop).toNat start

/-- Options of the Year selectbox (line 199): `range(current_year, 1989, -1)`. -/
def yearOptions (currentYear : Int) : List Int := rangeDown currentYear 1989

/-- Options of the Season selectbox (line 200). -/
def seasonOptions : List String := ["winter", "spring", "summer", "fall"]

/-! ### The page render passes (lines 206–309) -/

/-- Observable outcome of one page render pass: URLs requested, the messages
shown by kind, the cards drawn, and whether `st.rerun()` was called. -/
structure RenderPass where
  requests : List String
  errors : List String
  successes : List String
  warnings : List String
  infos : List String
  cards : List Card
  rerun : Bool
deriving DecidableEq

/-- The `else: st.warning(...)` arm shared by the fetching pages. -/
def warnPass (out : FetchOutcome) (msg : String) : RenderPass :=
  { requests := out.requests, errors := out.errors, successes := [],
    warnings := [msg], infos := [], cards := [], rerun := false }

/-- The repeated `if data and data.get('data'):` test plus the list the
`for`-loop then walks.  `some none` when the test is falsy, `some (some
items)` when it passes; `none` models the error Python raises when a truthy
`data` is not a dict or a truthy `data['data']` is not a list. -/
def dataItems (result : Option Json) : Option (Option (List Json)) :=
  match result with
  | none => some none
  | some d =>
      if d.truthy then
        match d.get "data" .null with
        | none => none
        | some dv => if dv.truthy then dv.asArr.map some else some none
      else some none

/-- The skeleton every fetching page repeats (`if data and data.get('data'):
st.success(...); for anime in data['data']: display_anime_card(anime) ...
else: st.warning(...)`): on a passing test, the page's success messages, one
card per item, and the page's rerun behaviour; otherwise the page's warning.
The pass is `none` when card rendering would raise. -/
def listingPass (out : FetchOutcome) (successOf : List Json → List String)
    (warnMsg : String) (rerunFlag : Bool) : Option RenderPass :=
  match dataItems out.result with
  | none => none
  | some none => some (warnPass out warnMsg)
  | some (some items) =>
      match items.mapM display_anime_card with
      | none => none
      | some cards =>
          some { requests := out.requests, errors := out.errors,
                 successes := successOf items, warnings := [], infos := [],
                 cards := cards, rerun := rerunFlag }

/-- The Home page (lines 210–220): fetch trending page 1, limit 10; render
each item, or warn. -/
def homeView (net : String → HttpResult) (cache : TopCache) (now : Nat) :
    Option RenderPass × TopCache :=
  let (out, cache') := fetch_top_anime_cached net cache now 1 10
  (listingPass out (fun _ => [])
    "Unable to load anime data. Please try again later." false, cache')

/-- The Search page (lines 223–240): with a non-empty query, fetch by name
and render results or a no-results warning; with an empty query, show the
prompt and fetch nothing. -/
def searchView (net : String → HttpResult) (cache : SearchCache) (now : Nat)
    (searchQuery : String) : Option RenderPass × SearchCache :=
  if searchQuery ≠ "" then
    let (out, cache') := search_anime_cached net cache now searchQuery
    (listingPass out
      (fun items => ["Found " ++ toString items.length ++ " results for \x27" ++
        searchQuery ++ "\x27"])
      "No results found. Try a different search term." false, cache')
  else
    (some { requests := [], errors := [], successes := [], warnings := [],
            infos := ["👆 Enter an anime name to start searching!"],
            cards := [], rerun := false }, cache)

/-- The Seasonal page (lines 243–254): fetch the selected (year, season) and
render results, or warn. -/
def seasonalView (net : String → HttpResult) (cache : SeasonalCache) (now : Nat)
    (year : Int) (season : String) : Option RenderPass × SeasonalCache :=
  let (out, cache') := fetch_seasonal_anime_cached net cache now year season
  (listingPass out
    (fun items => ["Found " ++ toString items.length ++ " anime for " ++
      season.capitalize ++ " " ++ toString year])
    "Unable to load seasonal anime data." false, cache')

/-- The Top Rated page (lines 257–281).  `pageInput` is the attempted page
value, held by the widget as its clamp into [1, 100].  The previous-page
button exists only when `page_num > 1`; both buttons just call `st.rerun()`
and nothing writes the page-number field, which the pass returns unchanged as
its third component. -/
def topRatedView (net : String → HttpResult) (cache : TopCache) (now : Nat)
    (pageInput : Int) (prevClicked nextClicked : Bool) :
    Option RenderPass × TopCache × Int :=
  let pageNum := numberInputClamp 1 100 pageInput
  let (out, cache') := fetch_top_anime_cached net cache now pageNum 25
  (listingPass out (fun _ => ["Showing top anime - Page " ++ toString pageNum])
    "Unable to load top anime data."
    ((decide (1 < pageNum) && prevClicked) || nextClicked), cache', pageNum)

/-! ### Helper lemmas -/

/-- A failing `requests.get` (transport error or 4xx/5xx status) makes
`requestGet` return an error. -/
theorem requestGet_error_of_fails (net : String → HttpResult) (url : String)
    (h : (net url).fails) : ∃ e, requestGet net url = .error e := by
  cases hn : net url with
  | netError m => exact ⟨m, by simp [requestGet, hn]⟩
  | response s b =>
      rw [hn] at h
      exact ⟨"HTTP status " ++ toString s,
        by simp [requestGet, hn, show 400 ≤ s ∧ s < 600 from h]⟩

/-- On a failing call, `fetch_top_anime` returns `None` after one request and
one error message. -/
theorem fetch_top_anime_of_fails (net : String → HttpResult) (page limit : Int)
    (h : (net (topAnimeUrl page limit)).fails) :
    ∃ e, fetch_top_anime net page limit =
      { result := none, requests := [topAnimeUrl page limit],
        errors := ["Error fetching anime data: " ++ e] } := by
  obtain ⟨e, he⟩ := requestGet_error_of_fails net _ h
  exact ⟨e, by simp only [fetch_top_anime, he]⟩

/-- On a failing call, `search_anime` returns `None` after one request and
one error message. -/
theorem search_anime_of_fails (net : String → HttpResult) (q : String)
    (h : (net (searchAnimeUrl q)).fails) :
    ∃ e, search_anime net q =
      { result := none, requests := [searchAnimeUrl q],
        errors := ["Error searching anime: " ++ e] } := by
  obtain ⟨e, he⟩ := requestGet_error_of_fails net _ h
  exact ⟨e, by simp only [search_anime, he]⟩

/-- On a failing call, `fetch_anime_details` returns `None` after one request
and one error message. -/
theorem fetch_anime_details_of_fails (net : String → HttpResult) (animeId : Json)
    (h : (net (animeDetailsUrl animeId)).fails) :
    ∃ e, fetch_anime_details net animeId =
      { result := none, requests := [animeDetailsUrl animeId],
        errors := ["Error fetching anime details: " ++ e] } := by
  obtain ⟨e, he⟩ := requestGet_error_of_fails net _ h
  exact ⟨e, by simp only [fetch_anime_details, he]⟩

/-- On a failing call, `fetch_seasonal_anime` returns `None` after one request
and one error message. -/
theorem fetch_seasonal_anime_of_fails (net : String → HttpResult) (year : Int)
    (season : String) (h : (net (seasonalAnimeUrl year season)).fails) :
    ∃ e, fetch_seasonal_anime net year season =
      { result := none, requests := [seasonalAnimeUrl year season],
        errors := ["Error fetching seasonal anime: " ++ e] } := by
  obtain ⟨e, he⟩ := requestGet_error_of_fails net _ h
  exact ⟨e, by simp only [fetch_seasonal_anime, he]⟩

/-- Whatever the network answers, `fetch_top_anime` requests its one URL. -/
theorem fetch_top_anime_requests (net : String → HttpResult) (page limit : Int) :
    (fetch_top_anime net page limit).requests = [topAnimeUrl page limit] := by
  unfold fetch_top_anime
  cases requestGet net (topAnimeUrl page limit) <;> rfl

/-- Whatever the network answers, `search_anime` requests its one URL. -/
theorem search_anime_requests (net : String → HttpResult) (q : String) :
    (search_anime net q).requests = [searchAnimeUrl q] := by
  unfold search_anime
  cases requestGet net (searchAnimeUrl q) <;> rfl

/-- Whatever the network answers, `fetch_seasonal_anime` requests its one
URL. -/
theorem fetch_seasonal_anime_requests (net : String → HttpResult) (year : Int)
    (season : String) :
    (fetch_seasonal_anime net year season).requests = [seasonalAnimeUrl year season] := by
  unfold fetch_seasonal_anime
  cases requestGet net (seasonalAnimeUrl year season) <;> rfl

/-- A fresh key makes `cachedCall` run the body and prepend the new entry. -/
theorem cachedCall_miss {κ : Type} [DecidableEq κ] (entries : List (κ × Nat × CachedVal))
    (now : Nat) (key : κ) (compute : Unit → FetchOutcome)
    (h : cacheLookup entries key = none) :
    cachedCall entries now key compute =
      (compute (), (key, now, ((compute ()).result, (compute ()).errors)) :: entries) := by
  unfold cachedCall
  rw [h]

/-- A just-prepended entry is found by `cacheLookup`. -/
theorem cacheLookup_cons_self {κ : Type} [DecidableEq κ]
    (entries : List (κ × Nat × CachedVal)) (key : κ) (t : Nat) (v : CachedVal) :
    cacheLookup ((key, t, v) :: entries) key = some (t, v) := by
  simp [cacheLookup]

/-- A fresh-enough entry makes `cachedCall` replay it with no request. -/
theorem cachedCall_hit {κ : Type} [DecidableEq κ] (entries : List (κ × Nat × CachedVal))
    (now : Nat) (key : κ) (compute : Unit → FetchOutcome) (t : Nat) (v : CachedVal)
    (hl : cacheLookup entries key = some (t, v)) (ht : now - t < 3600) :
    cachedCall entries now key compute =
      ({ result := v.1, requests := [], errors := v.2 }, entries) := by
  simp only [cachedCall, hl]
  rw [if_pos ht]

/-- A repeat of a memoized call within the TTL makes no request and returns
the first call's payload. -/
theorem cachedCall_second_within_ttl {κ : Type} [DecidableEq κ]
    (entries : List (κ × Nat × CachedVal)) (key : κ) (f g : Unit → FetchOutcome)
    (t0 t1 : Nat) (hfresh : cacheLookup entries key = none)
    (h01 : t0 ≤ t1) (httl : t1 < t0 + 3600) :
    (cachedCall (cachedCall entries t0 key f).2 t1 key g).1.requests = [] ∧
    (cachedCall (cachedCall entries t0 key f).2 t1 key g).1.result =
      (cachedCall entries t0 key f).1.result := by
  have h1 := cachedCall_miss entries t0 key f hfresh
  have h2 := cachedCall_hit ((key, t0, ((f ()).result, (f ()).errors)) :: entries) t1 key g
    t0 ((f ()).result, (f ()).errors) (cacheLookup_cons_self entries key t0 _) (by omega)
  simp [h1, h2]

/-- A key none of whose values occurs in a member list is not found. -/
theorem find_field_eq_none (fields : List (String × Json)) (key : String)
    (h : ∀ v : Json, (key, v) ∉ fields) :
    fields.find? (fun p => p.1 == key) = none := by
  rw [List.find?_eq_none]
  intro x hx
  obtain ⟨k, v⟩ := x
  simp only [beq_iff_eq]
  intro hk
  exact h v (by rw [← hk]; exact hx)

/-- Membership in `rangeDownAux`: the `n` integers just below or at `start`. -/
theorem mem_rangeDownAux (n : Nat) (start y : Int) :
    y ∈ rangeDownAux n start ↔ start - n < y ∧ y ≤ start := by
  induction n generalizing start with
  | zero =>
      simp only [rangeDownAux, List.not_mem_nil, false_iff, not_and]
      intro hy
      omega
  | succ n ih =>
      simp only [rangeDownAux, List.mem_cons, ih]
      omega

/-- The Year selectbox offers exactly the years from the current one down to
1990. -/
theorem mem_yearOptions (currentYear y : Int) (h : 1990 ≤ currentYear) :
    y ∈ yearOptions currentYear ↔ 1990 ≤ y ∧ y ≤ currentYear := by
  unfold yearOptions rangeDown
  rw [mem_rangeDownAux]
  omega

/-- Structure of any pass the listing skeleton draws: it reports the fetch's
requests and errors, and either it is the warning arm (the page's one warning,
zero cards, no rerun) or the success arm (no warning, the page's rerun flag). -/
theorem listingPass_eq_some (out : FetchOutcome) (s : List Json → List String)
    (w : String) (r : Bool) (rp : RenderPass) (h : listingPass out s w r = some rp) :
    rp.requests = out.requests ∧ rp.errors = out.errors ∧
    ((rp.warnings = [w] ∧ rp.cards = [] ∧ rp.rerun = false) ∨
     (rp.warnings = [] ∧ rp.rerun = r)) := by
  unfold listingPass at h
  split at h
  · exact absurd h (by simp)
  · rw [Option.some_inj] at h
    subst h
    simp [warnPass]
  · split at h
    · exact absurd h (by simp)
    · rw [Option.some_inj] at h
      subst h
      simp

/-- A fetch that returned `None` sends the listing skeleton to its warning
arm. -/
theorem listingPass_none_result (out : FetchOutcome) (s : List Json → List String)
    (w : String) (r : Bool) (h : out.result = none) :
    listingPass out s w r = some (warnPass out w) := by
  simp [listingPass, dataItems, h]

/-- A payload that passes the `data and data.get('data')` test and renders
cleanly sends the listing skeleton to its success arm. -/
theorem listingPass_success (out : FetchOutcome) (s : List Json → List String)
    (w : String) (r : Bool) (items : List Json) (cards : List Card)
    (hi : dataItems out.result = some (some items))
    (hc : items.mapM display_anime_card = some cards) :
    listingPass out s w r =
      some { requests := out.requests, errors := out.errors, successes := s items,
             warnings := [], infos := [], cards := cards, rerun := r } := by
  simp only [listingPass, hi, hc]

/-! ### Concrete scenario material -/

/-- A network on which every request fails with a transport error. -/
def failNet : String → HttpResult := fun _ => .netError "connection timed out"

/-- The minimal trending item of the spec's scenario: only `mal_id` and
`title`. -/
def itemA : Json := .obj [("mal_id", .num 1), ("title", .str "A")]

/-- The card `display_anime_card` draws for `itemA`. -/
def cardA : Card :=
  { image := none, title := .str "A", titleEnglish := none,
    score := .str "N/A", episodes := .str "N/A", year := .str "N/A",
    status := .str "N/A", genreLine := none, synopsis := none,
    malId := .num 1, malLink := none, trailerLink := none }

/-- A network answering 200 with the payload holding the one item `itemA` at
the given URL, and failing everywhere else. -/
def oneItemNet (url : String) : String → HttpResult := fun u =>
  if u = url then .response 200 (.obj [("data", .arr [itemA])]) else .netError "offline"

/-! ### Claims -/

/-- C1: for each of the four fetch operations, a network error, timeout or
non-success HTTP status on its URL makes the operation return an absent
result (`None`) and emit exactly one user-visible error message — nothing is
raised past the caller, which the totality of the embedding exhibits — and
the seasonal render pass with a failing fetch still completes, showing the
warning and rendering zero cards. -/
theorem fetch_failure_never_escapes
    (net : String → HttpResult) (page limit : Int) (q : String) (animeId : Json)
    (year : Int) (season : String) (cache : SeasonalCache) (now : Nat)
    (htop : (net (topAnimeUrl page limit)).fails)
    (hsearch : (net (searchAnimeUrl q)).fails)
    (hdet : (net (animeDetailsUrl animeId)).fails)
    (hseas : (net (seasonalAnimeUrl year season)).fails)
    (hfresh : cacheLookup cache (year, season) = none) :
    (fetch_top_anime net page limit).result = none ∧
    (fetch_top_anime net page limit).errors.length = 1 ∧
    (search_anime net q).result = none ∧
    (search_anime net q).errors.length = 1 ∧
    (fetch_anime_details net animeId).result = none ∧
    (fetch_anime_details net animeId).errors.length = 1 ∧
    (fetch_seasonal_anime net year season).result = none ∧
    (fetch_seasonal_anime net year season).errors.length = 1 ∧
    (∃ rp, (seasonalView net cache now year season).1 = some rp ∧
       rp.warnings = ["Unable to load seasonal anime data."] ∧ rp.cards = []) := by
  obtain ⟨e1, h1⟩ := fetch_top_anime_of_fails net page limit htop
  obtain ⟨e2, h2⟩ := search_anime_of_fails net q hsearch
  obtain ⟨e3, h3⟩ := fetch_anime_details_of_fails net animeId hdet
  obtain ⟨e4, h4⟩ := fetch_seasonal_anime_of_fails net year season hseas
  refine ⟨by rw [h1], by rw [h1]; rfl, by rw [h2], by rw [h2]; rfl,
    by rw [h3], by rw [h3]; rfl, by rw [h4], by rw [h4]; rfl,
    warnPass (fetch_seasonal_anime net year season) "Unable to load seasonal anime data.",
    ?_, rfl, rfl⟩
  have hcc := cachedCall_miss cache now (year, season)
    (fun _ => fetch_seasonal_anime net year season) hfresh
  simp only [seasonalView, fetch_seasonal_anime_cached, hcc]
  exact listingPass_none_result _ _ _ _ (by rw [h4])

/-- Witness for C1: a network that times out on every request, with the
seasonal scenario of the spec, (2024, "fall"). -/
theorem fetch_failure_never_escapes_witness :
    (failNet (topAnimeUrl 1 10)).fails ∧
    (failNet (searchAnimeUrl "naruto")).fails ∧
    (failNet (animeDetailsUrl (.num 1))).fails ∧
    (failNet (seasonalAnimeUrl 2024 "fall")).fails ∧
    cacheLookup ([] : SeasonalCache) (2024, "fall") = none ∧
    ((fetch_top_anime failNet 1 10).result = none ∧
     (fetch_top_anime failNet 1 10).errors.length = 1 ∧
     (search_anime failNet "naruto").result = none ∧
     (search_anime failNet "naruto").errors.length = 1 ∧
     (fetch_anime_details failNet (.num 1)).result = none ∧
     (fetch_anime_details failNet (.num 1)).errors.length = 1 ∧
     (fetch_seasonal_anime failNet 2024 "fall").result = none ∧
     (fetch_seasonal_anime failNet 2024 "fall").errors.length = 1 ∧
     (∃ rp, (seasonalView failNet [] 0 2024 "fall").1 = some rp ∧
        rp.warnings = ["Unable to load seasonal anime data."] ∧ rp.cards = [])) :=
  ⟨trivial, trivial, trivial, trivial, rfl,
   fetch_failure_never_escapes failNet 1 10 "naruto" (.num 1) 2024 "fall" [] 0
     trivial trivial trivial trivial rfl⟩

/-- C2: adding an already-present identifier leaves the favorites list
unchanged in length and order and reports "Already in favorites!" instead of
a confirmation; adding twice ends in the same state as adding once; the list
stays duplicate-free; and a removed identifier can be re-added, landing at the
end with the confirmation notice. -/
theorem favorites_add_idempotent (favs : List Json) (animeId : Json) (title : Json)
    (hnd : favs.Nodup) :
    (animeId ∈ favs →
      (addToFavorites favs animeId title).1 = favs ∧
      (addToFavorites favs animeId title).2 = .info "Already in favorites!") ∧
    (addToFavorites (addToFavorites favs animeId title).1 animeId title).1 =
      (addToFavorites favs animeId title).1 ∧
    (addToFavorites favs animeId title).1.Nodup ∧
    (animeId ∈ favs →
      addToFavorites (removeFromFavorites favs animeId) animeId title =
        (removeFromFavorites favs animeId ++ [animeId],
         .success ("Added " ++ title.render ++ " to favorites!"))) := by
  refine ⟨fun hm => ?_, ?_, ?_, fun hm => ?_⟩
  · constructor <;> simp [addToFavorites, hm]
  · by_cases hm : animeId ∈ favs
    · simp [addToFavorites, hm]
    · simp [addToFavorites, hm]
  · by_cases hm : animeId ∈ favs
    · simpa [addToFavorites, hm] using hnd
    · have ha : (addToFavorites favs animeId title).1 = favs ++ [animeId] := by
        simp [addToFavorites, hm]
      rw [ha]
      exact hnd.append (List.nodup_singleton _) (List.disjoint_singleton.2 hm)
  · have hni : animeId ∉ favs.erase animeId := List.Nodup.not_mem_erase hnd
    simp [addToFavorites, removeFromFavorites, hni]

/-- Witness for C2 on the two-element favorites list `[1, 2]` re-adding 1. -/
theorem favorites_add_idempotent_witness :
    ([Json.num 1, Json.num 2] : List Json).Nodup ∧
    ((Json.num 1 ∈ [Json.num 1, Json.num 2] →
      (addToFavorites [Json.num 1, Json.num 2] (.num 1) (.str "A")).1 =
        [Json.num 1, Json.num 2] ∧
      (addToFavorites [Json.num 1, Json.num 2] (.num 1) (.str "A")).2 =
        .info "Already in favorites!") ∧
    (addToFavorites
        (addToFavorites [Json.num 1, Json.num 2] (.num 1) (.str "A")).1
        (.num 1) (.str "A")).1 =
      (addToFavorites [Json.num 1, Json.num 2] (.num 1) (.str "A")).1 ∧
    (addToFavorites [Json.num 1, Json.num 2] (.num 1) (.str "A")).1.Nodup ∧
    (Json.num 1 ∈ [Json.num 1, Json.num 2] →
      addToFavorites (removeFromFavorites [Json.num 1, Json.num 2] (.num 1))
          (.num 1) (.str "A") =
        (removeFromFavorites [Json.num 1, Json.num 2] (.num 1) ++ [Json.num 1],
         .success ("Added " ++ (Json.str "A").render ++ " to favorites!")))) :=
  ⟨by decide,
   favorites_add_idempotent [Json.num 1, Json.num 2] (.num 1) (.str "A") (by decide)⟩

/-- C10: adding a not-yet-present identifier appends it at the end of the
favorites list, so every previously stored identifier survives, in its old
relative order. -/
theorem favorites_add_appends (favs : List Json) (animeId : Json) (title : Json)
    (h : animeId ∉ favs) :
    (addToFavorites favs animeId title).1 = favs ++ [animeId] := by
  simp [addToFavorites, h]

/-- Witness for C10: adding 1 to the list `[2, 3]`. -/
theorem favorites_add_appends_witness :
    (Json.num 1 ∉ [Json.num 2, Json.num 3]) ∧
    (addToFavorites [Json.num 2, Json.num 3] (.num 1) (.str "A")).1 =
      [Json.num 2, Json.num 3] ++ [Json.num 1] :=
  ⟨by decide, favorites_add_appends [Json.num 2, Json.num 3] (.num 1) (.str "A") (by decide)⟩

/-- C7: with valid page and limit, `fetch_top_anime` issues exactly one GET,
to the `/top/anime` endpoint with `page` and `limit` interpolated verbatim in
the query string; `search_anime` issues its one GET to `/anime` with the
query text and the limit fixed at 20. -/
theorem fetch_urls_verbatim (net : String → HttpResult) (page limit : Int) (q : String)
    (hpage : 1 ≤ page) (hlimit : 0 < limit) :
    (fetch_top_anime net page limit).requests =
      ["https://api.jikan.moe/v4/top/anime?page=" ++ toString page ++
       "&limit=" ++ toString limit] ∧
    (search_anime net q).requests =
      ["https://api.jikan.moe/v4/anime?q=" ++ q ++ "&limit=20"] :=
  ⟨fetch_top_anime_requests net page limit, search_anime_requests net q⟩

/-- Witness for C7 at page 1, limit 25, query "naruto". -/
theorem fetch_urls_verbatim_witness :
    (1 : Int) ≤ 1 ∧ (0 : Int) < 25 ∧
    ((fetch_top_anime failNet 1 25).requests =
      ["https://api.jikan.moe/v4/top/anime?page=" ++ toString (1 : Int) ++
       "&limit=" ++ toString (25 : Int)] ∧
     (search_anime failNet "naruto").requests =
      ["https://api.jikan.moe/v4/anime?q=" ++ "naruto" ++ "&limit=20"]) :=
  ⟨by decide, by decide, fetch_urls_verbatim failNet 1 25 "naruto" (by decide) (by decide)⟩

/-- C3: for each of the four memoized fetch operations, repeating the same
query within the one-hour TTL issues zero additional network requests — the
second call is evaluated against an arbitrary other network `net2` and still
touches nothing — and returns the cached payload unchanged. -/
theorem cached_fetch_ttl
    (net net2 : String → HttpResult)
    (ctop : TopCache) (csearch : SearchCache) (cdet : DetailsCache) (cseas : SeasonalCache)
    (t0 t1 : Nat) (page limit : Int) (q : String) (animeId : Json)
    (year : Int) (season : String)
    (hf1 : cacheLookup ctop (page, limit) = none)
    (hf2 : cacheLookup csearch q = none)
    (hf3 : cacheLookup cdet animeId = none)
    (hf4 : cacheLookup cseas (year, season) = none)
    (h01 : t0 ≤ t1) (httl : t1 < t0 + 3600) :
    ((fetch_top_anime_cached net2 (fetch_top_anime_cached net ctop t0 page limit).2
        t1 page limit).1.requests = [] ∧
     (fetch_top_anime_cached net2 (fetch_top_anime_cached net ctop t0 page limit).2
        t1 page limit).1.result = (fetch_top_anime_cached net ctop t0 page limit).1.result) ∧
    ((search_anime_cached net2 (search_anime_cached net csearch t0 q).2 t1 q).1.requests = [] ∧
     (search_anime_cached net2 (search_anime_cached net csearch t0 q).2 t1 q).1.result =
       (search_anime_cached net csearch t0 q).1.result) ∧
    ((fetch_anime_details_cached net2 (fetch_anime_details_cached net cdet t0 animeId).2
        t1 animeId).1.requests = [] ∧
     (fetch_anime_details_cached net2 (fetch_anime_details_cached net cdet t0 animeId).2
        t1 animeId).1.result = (fetch_anime_details_cached net cdet t0 animeId).1.result) ∧
    ((fetch_seasonal_anime_cached net2
        (fetch_seasonal_anime_cached net cseas t0 year season).2 t1 year season).1.requests = [] ∧
     (fetch_seasonal_anime_cached net2
        (fetch_seasonal_anime_cached net cseas t0 year season).2 t1 year season).1.result =
       (fetch_seasonal_anime_cached net cseas t0 year season).1.result) :=
  ⟨cachedCall_second_within_ttl ctop (page, limit) _ _ t0 t1 hf1 h01 httl,
   cachedCall_second_within_ttl csearch q _ _ t0 t1 hf2 h01 httl,
   cachedCall_second_within_ttl cdet animeId _ _ t0 t1 hf3 h01 httl,
   cachedCall_second_within_ttl cseas (year, season) _ _ t0 t1 hf4 h01 httl⟩

/-- Witness for C3: first calls at time 0 on empty caches, repeated at time
1800 against a dead network. -/
theorem cached_fetch_ttl_witness :
    cacheLookup ([] : TopCache) ((1 : Int), (10 : Int)) = none ∧
    cacheLookup ([] : SearchCache) "naruto" = none ∧
    cacheLookup ([] : DetailsCache) (Json.num 1) = none ∧
    cacheLookup ([] : SeasonalCache) ((2024 : Int), "fall") = none ∧
    (0 : Nat) ≤ 1800 ∧ (1800 : Nat) < 0 + 3600 ∧
    (((fetch_top_anime_cached failNet
         (fetch_top_anime_cached (oneItemNet (topAnimeUrl 1 10)) [] 0 1 10).2
         1800 1 10).1.requests = [] ∧
      (fetch_top_anime_cached failNet
         (fetch_top_anime_cached (oneItemNet (topAnimeUrl 1 10)) [] 0 1 10).2
         1800 1 10).1.result =
        (fetch_top_anime_cached (oneItemNet (topAnimeUrl 1 10)) [] 0 1 10).1.result) ∧
     ((search_anime_cached failNet
         (search_anime_cached (oneItemNet (topAnimeUrl 1 10)) [] 0 "naruto").2
         1800 "naruto").1.requests = [] ∧
      (search_anime_cached failNet
         (search_anime_cached (oneItemNet (topAnimeUrl 1 10)) [] 0 "naruto").2
         1800 "naruto").1.result =
        (search_anime_cached (oneItemNet (topAnimeUrl 1 10)) [] 0 "naruto").1.result) ∧
     ((fetch_anime_details_cached failNet
         (fetch_anime_details_cached (oneItemNet (topAnimeUrl 1 10)) [] 0 (.num 1)).2
         1800 (.num 1)).1.requests = [] ∧
      (fetch_anime_details_cached failNet
         (fetch_anime_details_cached (oneItemNet (topAnimeUrl 1 10)) [] 0 (.num 1)).2
         1800 (.num 1)).1.result =
        (fetch_anime_details_cached (oneItemNet (topAnimeUrl 1 10)) [] 0 (.num 1)).1.result) ∧
     ((fetch_seasonal_anime_cached failNet
         (fetch_seasonal_anime_cached (oneItemNet (topAnimeUrl 1 10)) [] 0 2024 "fall").2
         1800 2024 "fall").1.requests = [] ∧
      (fetch_seasonal_anime_cached failNet
         (fetch_seasonal_anime_cached (oneItemNet (topAnimeUrl 1 10)) [] 0 2024 "fall").2
         1800 2024 "fall").1.result =
        (fetch_seasonal_anime_cached (oneItemNet (topAnimeUrl 1 10)) [] 0 2024 "fall").1.result)) :=
  ⟨rfl, rfl, rfl, rfl, by decide, by decide,
   cached_fetch_ttl (oneItemNet (topAnimeUrl 1 10)) failNet [] [] [] [] 0 1800
     1 10 "naruto" (.num 1) 2024 "fall" rfl rfl rfl rfl (by decide) (by decide)⟩

/-- C4: a record missing the `score`, `episodes`, `year` and `status` keys
renders the literal "N/A" for each of the four metrics whenever its card
renders, and the spec's concrete record with only `mal_id` 1 and `title` "A",
arriving as the one trending item, renders — with nothing raised — exactly
one card whose title is "A" and whose four metrics are all "N/A". -/
theorem display_card_missing_metrics (fields : List (String × Json)) (c : Card)
    (hscore : ∀ v : Json, ("score", v) ∉ fields)
    (heps : ∀ v : Json, ("episodes", v) ∉ fields)
    (hyear : ∀ v : Json, ("year", v) ∉ fields)
    (hstatus : ∀ v : Json, ("status", v) ∉ fields)
    (hc : display_anime_card (.obj fields) = some c) :
    (c.score = .str "N/A" ∧ c.episodes = .str "N/A" ∧
     c.year = .str "N/A" ∧ c.status = .str "N/A") ∧
    (homeView (oneItemNet (topAnimeUrl 1 10)) [] 0).1 =
      some { requests := [topAnimeUrl 1 10], errors := [], successes := [],
             warnings := [], infos := [], cards := [cardA], rerun := false } ∧
    cardA.title = .str "A" ∧ cardA.score = .str "N/A" ∧ cardA.episodes = .str "N/A" ∧
    cardA.year = .str "N/A" ∧ cardA.status = .str "N/A" := by
  refine ⟨?_, by decide, by decide, by decide, by decide, by decide, by decide⟩
  have h1 := find_field_eq_none fields "score" hscore
  have h2 := find_field_eq_none fields "episodes" heps
  have h3 := find_field_eq_none fields "year" hyear
  have h4 := find_field_eq_none fields "status" hstatus
  simp [display_anime_card, Json.get, h1, h2, h3, h4] at hc
  obtain ⟨jpgVal, hj, hc⟩ := Option.bind_eq_some.mp hc
  obtain ⟨imgUrl, hi, hc⟩ := Option.bind_eq_some.mp hc
  split at hc
  · obtain ⟨gs, hgs, hc⟩ := Option.bind_eq_some.mp hc
    obtain ⟨names, hn, hc⟩ := Option.bind_eq_some.mp hc
    obtain ⟨tr, htr, hc⟩ := Option.bind_eq_some.mp hc
    rw [Option.some_inj] at hc
    subst hc
    exact ⟨rfl, rfl, rfl, rfl⟩
  · obtain ⟨tr, htr, hc⟩ := Option.bind_eq_some.mp hc
    rw [Option.some_inj] at hc
    subst hc
    exact ⟨rfl, rfl, rfl, rfl⟩

/-- Witness for C4 at the spec's record, whose card is `cardA`. -/
theorem display_card_missing_metrics_witness :
    (∀ v : Json, ("score", v) ∉ [("mal_id", Json.num 1), ("title", Json.str "A")]) ∧
    (∀ v : Json, ("episodes", v) ∉ [("mal_id", Json.num 1), ("title", Json.str "A")]) ∧
    (∀ v : Json, ("year", v) ∉ [("mal_id", Json.num 1), ("title", Json.str "A")]) ∧
    (∀ v : Json, ("status", v) ∉ [("mal_id", Json.num 1), ("title", Json.str "A")]) ∧
    display_anime_card (.obj [("mal_id", Json.num 1), ("title", Json.str "A")]) =
      some cardA ∧
    ((cardA.score = .str "N/A" ∧ cardA.episodes = .str "N/A" ∧
      cardA.year = .str "N/A" ∧ cardA.status = .str "N/A") ∧
     (homeView (oneItemNet (topAnimeUrl 1 10)) [] 0).1 =
       some { requests := [topAnimeUrl 1 10], errors := [], successes := [],
              warnings := [], infos := [], cards := [cardA], rerun := false } ∧
     cardA.title = .str "A" ∧ cardA.score = .str "N/A" ∧ cardA.episodes = .str "N/A" ∧
     cardA.year = .str "N/A" ∧ cardA.status = .str "N/A") :=
  ⟨by simp, by simp, by simp, by simp, by decide,
   display_card_missing_metrics [("mal_id", Json.num 1), ("title", Json.str "A")] cardA
     (by simp) (by simp) (by simp) (by simp) (by decide)⟩

/-- The card drawn for a record holding only `mal_id` 7. -/
def cardOnlyId : Card :=
  { image := none, title := .str "Unknown Title", titleEnglish := none,
    score := .str "N/A", episodes := .str "N/A", year := .str "N/A",
    status := .str "N/A", genreLine := none, synopsis := none,
    malId := .num 7, malLink := none, trailerLink := none }

/-- C9: a record with no `title` key renders the literal fallback title
"Unknown Title" whenever its card renders. -/
theorem display_card_missing_title (fields : List (String × Json)) (c : Card)
    (htitle : ∀ v : Json, ("title", v) ∉ fields)
    (hc : display_anime_card (.obj fields) = some c) :
    c.title = .str "Unknown Title" := by
  have h1 := find_field_eq_none fields "title" htitle
  simp [display_anime_card, Json.get, h1] at hc
  obtain ⟨jpgVal, hj, hc⟩ := Option.bind_eq_some.mp hc
  obtain ⟨imgUrl, hi, hc⟩ := Option.bind_eq_some.mp hc
  split at hc
  · obtain ⟨gs, hgs, hc⟩ := Option.bind_eq_some.mp hc
    obtain ⟨names, hn, hc⟩ := Option.bind_eq_some.mp hc
    obtain ⟨tr, htr, hc⟩ := Option.bind_eq_some.mp hc
    rw [Option.some_inj] at hc
    subst hc
    rfl
  · obtain ⟨tr, htr, hc⟩ := Option.bind_eq_some.mp hc
    rw [Option.some_inj] at hc
    subst hc
    rfl

/-- Witness for C9 at the record holding only `mal_id` 7. -/
theorem display_card_missing_title_witness :
    (∀ v : Json, ("title", v) ∉ [("mal_id", Json.num 7)]) ∧
    display_anime_card (.obj [("mal_id", Json.num 7)]) = some cardOnlyId ∧
    cardOnlyId.title = .str "Unknown Title" :=
  ⟨by simp, by decide,
   display_card_missing_title [("mal_id", Json.num 7)] cardOnlyId (by simp) (by decide)⟩

/-- C5: the Top Rated page number is kept within 1 and 100 inclusive; the
trending fetch goes out for that page with limit 25 (one request, taking the
page's cache key as fresh); and the previous/next controls only trigger
`st.rerun()` in the success arm, leaving the page-number field unchanged —
after the pass it equals the clamped input whatever the buttons did. -/
theorem topRated_page_controls (net : String → HttpResult) (cache : TopCache) (now : Nat)
    (pageInput : Int) (prevClicked nextClicked : Bool) (rp : RenderPass)
    (hfresh : cacheLookup cache (numberInputClamp 1 100 pageInput, 25) = none)
    (hrp : (topRatedView net cache now pageInput prevClicked nextClicked).1 = some rp) :
    1 ≤ numberInputClamp 1 100 pageInput ∧ numberInputClamp 1 100 pageInput ≤ 100 ∧
    rp.requests = [topAnimeUrl (numberInputClamp 1 100 pageInput) 25] ∧
    (rp.warnings = [] →
      rp.rerun = ((decide (1 < numberInputClamp 1 100 pageInput) && prevClicked)
        || nextClicked)) ∧
    (topRatedView net cache now pageInput prevClicked nextClicked).2.2 =
      numberInputClamp 1 100 pageInput := by
  have hcc := cachedCall_miss cache now (numberInputClamp 1 100 pageInput, 25)
    (fun _ => fetch_top_anime net (numberInputClamp 1 100 pageInput) 25) hfresh
  have hv : topRatedView net cache now pageInput prevClicked nextClicked =
      (listingPass (fetch_top_anime net (numberInputClamp 1 100 pageInput) 25)
         (fun _ => ["Showing top anime - Page " ++
            toString (numberInputClamp 1 100 pageInput)])
         "Unable to load top anime data."
         ((decide (1 < numberInputClamp 1 100 pageInput) && prevClicked) || nextClicked),
       ((numberInputClamp 1 100 pageInput, 25), now,
          ((fetch_top_anime net (numberInputClamp 1 100 pageInput) 25).result,
           (fetch_top_anime net (numberInputClamp 1 100 pageInput) 25).errors)) :: cache,
       numberInputClamp 1 100 pageInput) := by
    simp [topRatedView, fetch_top_anime_cached, hcc]
  rw [hv] at hrp
  obtain ⟨hreq, herr, hwc⟩ := listingPass_eq_some _ _ _ _ rp hrp
  refine ⟨by unfold numberInputClamp; omega, by unfold numberInputClamp; omega,
    hreq.trans (fetch_top_anime_requests net _ _), ?_, by rw [hv]⟩
  intro hw
  rcases hwc with ⟨hw1, _, _⟩ | ⟨_, hr⟩
  · simp [hw] at hw1
  · exact hr

/-- The pass the Top Rated page draws in the C5 witness scenario. -/
def topRatedPass5 : RenderPass :=
  { requests := [topAnimeUrl 5 25], errors := [],
    successes := ["Showing top anime - Page 5"], warnings := [], infos := [],
    cards := [cardA], rerun := true }

/-- Witness for C5: attempted page 5, next-page clicked, one item returned. -/
theorem topRated_page_controls_witness :
    cacheLookup ([] : TopCache) (numberInputClamp 1 100 5, 25) = none ∧
    (topRatedView (oneItemNet (topAnimeUrl 5 25)) [] 0 5 false true).1 =
      some topRatedPass5 ∧
    (1 ≤ numberInputClamp 1 100 5 ∧ numberInputClamp 1 100 5 ≤ 100 ∧
     topRatedPass5.requests = [topAnimeUrl (numberInputClamp 1 100 5) 25] ∧
     (topRatedPass5.warnings = [] →
       topRatedPass5.rerun = ((decide (1 < numberInputClamp 1 100 5) && false) || true)) ∧
     (topRatedView (oneItemNet (topAnimeUrl 5 25)) [] 0 5 false true).2.2 =
       numberInputClamp 1 100 5) :=
  ⟨rfl, by decide,
   topRated_page_controls (oneItemNet (topAnimeUrl 5 25)) [] 0 5 false true
     topRatedPass5 rfl (by decide)⟩

/-- C6: an empty query makes the Search view perform no network call and show
the enter-a-name prompt; a non-empty query (on a fresh cache key) fetches by
name with exactly one request, and the pass either shows the no-results
notice with zero cards or renders the results with no warning. -/
theorem search_view_query (net : String → HttpResult) (cache : SearchCache) (now : Nat)
    (q : String) (rp : RenderPass) (hq : q ≠ "")
    (hfresh : cacheLookup cache q = none)
    (hrp : (searchView net cache now q).1 = some rp) :
    (searchView net cache now "") =
      (some { requests := [], errors := [], successes := [], warnings := [],
              infos := ["👆 Enter an anime name to start searching!"],
              cards := [], rerun := false }, cache) ∧
    rp.requests = [searchAnimeUrl q] ∧
    ((rp.warnings = ["No results found. Try a different search term."] ∧ rp.cards = []) ∨
     rp.warnings = []) := by
  have hcc := cachedCall_miss cache now q (fun _ => search_anime net q) hfresh
  have hv : searchView net cache now q =
      (listingPass (search_anime net q)
         (fun items => ["Found " ++ toString items.length ++ " results for \x27" ++
           q ++ "\x27"])
         "No results found. Try a different search term." false,
       (q, now, ((search_anime net q).result, (search_anime net q).errors)) :: cache) := by
    simp [searchView, search_anime_cached, hcc, hq]
  rw [hv] at hrp
  obtain ⟨hreq, herr, hwc⟩ := listingPass_eq_some _ _ _ _ rp hrp
  refine ⟨rfl, hreq.trans (search_anime_requests net q), ?_⟩
  rcases hwc with ⟨hw, hc, _⟩ | ⟨hw, _⟩
  · exact Or.inl ⟨hw, hc⟩
  · exact Or.inr hw

/-- The pass the Search page draws in the C6 witness scenario. -/
def searchPassNaruto : RenderPass :=
  { requests := [searchAnimeUrl "naruto"], errors := [],
    successes := ["Found 1 results for \x27naruto\x27"], warnings := [], infos := [],
    cards := [cardA], rerun := false }

/-- The prompt pass the Search page draws on an empty query. -/
def searchPromptPass : RenderPass :=
  { requests := [], errors := [], successes := [], warnings := [],
    infos := ["👆 Enter an anime name to start searching!"], cards := [],
    rerun := false }

/-- Witness for C6 with the query "naruto" answered by one item. -/
theorem search_view_query_witness :
    "naruto" ≠ "" ∧
    cacheLookup ([] : SearchCache) "naruto" = none ∧
    (searchView (oneItemNet (searchAnimeUrl "naruto")) [] 0 "naruto").1 =
      some searchPassNaruto ∧
    ((searchView (oneItemNet (searchAnimeUrl "naruto")) [] 0 "") =
       (some searchPromptPass, ([] : SearchCache)) ∧
     searchPassNaruto.requests = [searchAnimeUrl "naruto"] ∧
     ((searchPassNaruto.warnings = ["No results found. Try a different search term."] ∧
       searchPassNaruto.cards = []) ∨
      searchPassNaruto.warnings = [])) :=
  ⟨by decide, rfl, by decide,
   search_view_query (oneItemNet (searchAnimeUrl "naruto")) [] 0 "naruto"
     searchPassNaruto (by decide) rfl (by decide)⟩

/-- C8: the Seasonal sidebar offers exactly the years from the current year
down to 1990 inclusive and exactly the four seasons winter, spring, summer,
fall; the seasonal fetch goes out for the selected pair (one request, taking
its cache key as fresh), and a payload that renders cleanly is rendered one
card per item. -/
theorem seasonal_selectors_and_fetch (net : String → HttpResult) (cache : SeasonalCache)
    (now : Nat) (currentYear y : Int) (season : String) (rp : RenderPass)
    (hcy : 1990 ≤ currentYear)
    (hfresh : cacheLookup cache (y, season) = none)
    (hrp : (seasonalView net cache now y season).1 = some rp) :
    (y ∈ yearOptions currentYear ↔ 1990 ≤ y ∧ y ≤ currentYear) ∧
    seasonOptions = ["winter", "spring", "summer", "fall"] ∧
    rp.requests = [seasonalAnimeUrl y season] ∧
    (∀ items cards,
       dataItems (fetch_seasonal_anime net y season).result = some (some items) →
       items.mapM display_anime_card = some cards → rp.cards = cards) := by
  have hcc := cachedCall_miss cache now (y, season)
    (fun _ => fetch_seasonal_anime net y season) hfresh
  have hv : seasonalView net cache now y season =
      (listingPass (fetch_seasonal_anime net y season)
         (fun items => ["Found " ++ toString items.length ++ " anime for " ++
           season.capitalize ++ " " ++ toString y])
         "Unable to load seasonal anime data." false,
       ((y, season), now, ((fetch_seasonal_anime net y season).result,
          (fetch_seasonal_anime net y season).errors)) :: cache) := by
    simp [seasonalView, fetch_seasonal_anime_cached, hcc]
  rw [hv] at hrp
  obtain ⟨hreq, herr, hwc⟩ := listingPass_eq_some _ _ _ _ rp hrp
  refine ⟨mem_yearOptions currentYear y hcy, rfl,
    hreq.trans (fetch_seasonal_anime_requests net y season), ?_⟩
  intro items cards hi hc
  rw [listingPass_success _ _ _ _ items cards hi hc, Option.some_inj] at hrp
  rw [← hrp]

/-- The pass the Seasonal page draws in the C8 witness scenario. -/
def seasonalPassFall : RenderPass :=
  { requests := [seasonalAnimeUrl 2024 "fall"], errors := [],
    successes := ["Found 1 anime for Fall 2024"], warnings := [], infos := [],
    cards := [cardA], rerun := false }

/-- Witness for C8: current year 2024, selection (2024, "fall"), one item. -/
theorem seasonal_selectors_and_fetch_witness :
    (1990 : Int) ≤ 2024 ∧
    cacheLookup ([] : SeasonalCache) ((2024 : Int), "fall") = none ∧
    (seasonalView (oneItemNet (seasonalAnimeUrl 2024 "fall")) [] 0 2024 "fall").1 =
      some seasonalPassFall ∧
    (((2024 : Int) ∈ yearOptions 2024 ↔ (1990 : Int) ≤ 2024 ∧ (2024 : Int) ≤ 2024) ∧
     seasonOptions = ["winter", "spring", "summer", "fall"] ∧
     seasonalPassFall.requests = [seasonalAnimeUrl 2024 "fall"] ∧
     (∀ items cards,
        dataItems (fetch_seasonal_anime (oneItemNet (seasonalAnimeUrl 2024 "fall"))
            2024 "fall").result = some (some items) →
        items.mapM display_anime_card = some cards →
        seasonalPassFall.cards = cards)) :=
  ⟨by decide, rfl, by decide,
   seasonal_selectors_and_fetch (oneItemNet (seasonalAnimeUrl 2024 "fall")) [] 0
     2024 2024 "fall" seasonalPassFall (by decide) rfl (by decide)⟩

end AnimeHub
